import Mathlib

/-!
# Governance parameters of the EVM module

Shallow embedding of `x/evm/types/params.go`: the storage keys, the default
Parameter Set, the eight per-field validators, the aggregate `Params.Validate`
and the bindings returned by `Params.ParamSetPairs`.

Conventions of the embedding.

* A Go `error` result is an `Option`: `none` is `nil`, `some e` is a failure.
* A Go `interface{}` argument is a `Value`, a tagged union of the dynamic
  types the validators distinguish plus a catch-all for every other type.
* `sdk.Dec` is its 18-digit fixed-point mantissa, `sdk.Int` its integer; both
  are unbounded (`math/big`), so `Int` is exact.
* The nested chain configuration is not part of this file of the program. Its
  type `CC`, the type `E` of the errors its own `Validate` produces, and that
  `Validate` itself are parameters of the development.
-/

namespace EvmTypes

/-! ## Library types -/

/-- Byte strings (`[]byte`). -/
abbrev Bytes := List UInt8

/-- Conversion `[]byte(s)` of a Go string literal: its UTF-8 bytes. -/
def bytesOfString (s : String) : Bytes := s.toUTF8.data.toList

/-- Number of decimal places of `sdk.Dec` (`sdk.Precision`). -/
def Precision : Nat := 18

/-- The decimal `sdk.Dec`: the value is `i / 10 ^ Precision`. The mantissa is
an initialised big integer; the zero value with a nil mantissa is not a decimal
and is not represented. -/
structure Dec where
  i : Int
deriving DecidableEq, Repr

/-- Constructor `sdk.NewDec(n)`: the decimal with integral value `n`. -/
def NewDec (n : Int) : Dec := ⟨n * 10 ^ Precision⟩

/-- Smallest positive decimal, `sdk.SmallestDec()`, that is `10 ^ (-18)`. -/
def SmallestDec : Dec := ⟨1⟩

/-- Method `Dec.IsPositive`: the mantissa has sign `1`. -/
def Dec.IsPositive (d : Dec) : Bool := decide (Int.sign d.i = 1)

/-- Method `Dec.IsNegative`: the mantissa has sign `-1`. -/
def Dec.IsNegative (d : Dec) : Bool := decide (Int.sign d.i = -1)

/-- Method `Dec.LT`: comparison of the mantissas. -/
def Dec.LT (d d2 : Dec) : Bool := decide (d.i < d2.i)

/-- Method `Dec.GTE`: comparison of the mantissas. -/
def Dec.GTE (d d2 : Dec) : Bool := decide (d.i ≥ d2.i)

/-- Method `Dec.Add`: sum of the mantissas. -/
def Dec.Add (d d2 : Dec) : Dec := ⟨d.i + d2.i⟩

/-- The big integer `sdk.Int`. -/
structure SdkInt where
  i : Int
deriving DecidableEq, Repr

/-- Constructor `sdk.NewInt(n)`. -/
def NewInt (n : Int) : SdkInt := ⟨n⟩

/-- Method `Int.IsNegative` of `sdk.Int`: the sign is `-1`. -/
def SdkInt.IsNegative (v : SdkInt) : Bool := decide (Int.sign v.i = -1)

/-! ## `encoding/hex` -/

/-- Errors of `encoding/hex`. -/
inductive HexError where
  | InvalidByteError (b : UInt8)
  | ErrLength
deriving DecidableEq, Repr

/-- Value of one ASCII hexadecimal digit (`reverseHexTable`), `none` for a byte
that is not a digit. -/
def fromHexChar (c : UInt8) : Option UInt8 :=
  if 48 ≤ c.toNat ∧ c.toNat ≤ 57 then some (c - 48)
  else if 97 ≤ c.toNat ∧ c.toNat ≤ 102 then some (c - 97 + 10)
  else if 65 ≤ c.toNat ∧ c.toNat ≤ 70 then some (c - 65 + 10)
  else none

/-- Function `hex.Decode`: the bytes decoded before the first error, and that
error if there is one. -/
def hexDecode : Bytes → Bytes × Option HexError
  | [] => ([], none)
  | [p] =>
    match fromHexChar p with
    | none => ([], some (.InvalidByteError p))
    | some _ => ([], some .ErrLength)
  | p :: q :: rest =>
    match fromHexChar p with
    | none => ([], some (.InvalidByteError p))
    | some a =>
      match fromHexChar q with
      | none => ([], some (.InvalidByteError q))
      | some b =>
        let r := hexDecode rest
        ((a <<< 4 ||| b) :: r.1, r.2)

/-- Function `hex.DecodeString`. -/
def hexDecodeString (s : String) : Bytes × Option HexError :=
  hexDecode (bytesOfString s)

/-! ## Dynamically typed values and errors -/

/-- Dynamic types of the values handed to a validator (what `%T` prints). -/
inductive GoType where
  | string
  | Dec
  | Int
  | ChainConfig
  | stringSlice
  | bytesSlice
  | other (name : String)
deriving DecidableEq, Repr

/-- A value of type `interface{}`: one constructor per dynamic type a validator
asserts, and `other` for a value of any other dynamic type (nil included). -/
inductive Value (CC : Type) where
  | string (v : String)
  | Dec (v : Dec)
  | Int (v : SdkInt)
  | ChainConfig (v : CC)
  | stringSlice (v : List String)
  | bytesSlice (v : List Bytes)
  | other (name : String)
deriving DecidableEq, Repr

/-- Dynamic type of a value. -/
def Value.goType {CC : Type} : Value CC → GoType
  | .string _ => .string
  | .Dec _ => .Dec
  | .Int _ => .Int
  | .ChainConfig _ => .ChainConfig
  | .stringSlice _ => .stringSlice
  | .bytesSlice _ => .bytesSlice
  | .other name => .other name

/-- Error values: `errors.New(text)`, `fmt.Errorf(format, arg)` with its single
operand, and an error produced by the chain configuration's own `Validate`. -/
inductive Error (CC E : Type) where
  | new (text : String)
  | errorf (format : String) (arg : Value CC)
  | nested (e : E)
deriving DecidableEq, Repr

/-- Error categories, as the specification names them. The program tells errors
apart by their message text only; `Nested` stands for an error of the chain
configuration's own validation and `Unclassified` for any other text. -/
inductive ErrorKind where
  | InvalidType
  | EmptyValue
  | NonPositiveValue
  | NegativeValue
  | InconsistentFees
  | Nested
  | Unclassified
deriving DecidableEq, Repr

/-- Category of an error, read off the message text the program gives it. -/
def Error.kind {CC E : Type} : Error CC E → ErrorKind
  | .new text =>
    if text = "empty base denom" then .EmptyValue
    else if text = "minimum fee cannot be lower than base fee" then .InconsistentFees
    else .Unclassified
  | .errorf format _ =>
    if format = "invalid parameter type: %T" then .InvalidType
    else if format = "nonpositive priority normalizer: %d" then .NonPositiveValue
    else if format = "negative base fee per gas: %d" then .NegativeValue
    else if format = "negative min fee per gas: %d" then .NegativeValue
    else .Unclassified
  | .nested _ => .Nested

/-- Type printed by an `InvalidType` error: the dynamic type of its operand. -/
def Error.reportedType {CC E : Type} : Error CC E → Option GoType
  | .errorf format arg =>
    if format = "invalid parameter type: %T" then some arg.goType else none
  | _ => none

/-- Fixed message text of an error: the text given to `errors.New`, or the
format string given to `fmt.Errorf` (the text before its operand is rendered).
An error of the chain configuration has no text of this file. -/
def Error.text {CC E : Type} : Error CC E → Option String
  | .new text => some text
  | .errorf format _ => some format
  | .nested _ => none

/-! ## Storage keys and defaults -/

def KeyBaseDenom : Bytes := bytesOfString "KeyBaseDenom"

def KeyPriorityNormalizer : Bytes := bytesOfString "KeyPriorityNormalizer"

def KeyBaseFeePerGas : Bytes := bytesOfString "KeyBaseFeePerGas"

def KeyMinFeePerGas : Bytes := bytesOfString "KeyMinFeePerGas"

def KeyChainConfig : Bytes := bytesOfString "KeyChainConfig"

def KeyChainID : Bytes := bytesOfString "KeyChainID"

def KeyWhitelistedCodeHashesBankSend : Bytes :=
  bytesOfString "KeyWhitelistedCodeHashesBankSend"

def KeyWhitelistedCwCodeHashesForDelegateCall : Bytes :=
  bytesOfString "KeyWhitelistedCwCodeHashesForDelegateCall"

def DefaultBaseDenom : String := "usei"

def DefaultPriorityNormalizer : Dec := NewDec 1

def DefaultBaseFeePerGas : Dec := NewDec 0

def DefaultMinFeePerGas : Dec := NewDec 1000000000

def DefaultChainID : SdkInt := NewInt 713715

/-- Function `generateDefaultWhitelistedCodeHashesBankSend`. The argument is the
string `crypto.Keccak256Hash(native.GetBin()).Hex()`: the digest of the embedded
contract artifact, which is not part of this file of the program. -/
def generateDefaultWhitelistedCodeHashesBankSend (nativeHashHex : String) : List String :=
  [] ++ [nativeHashHex]

/-- Function `generateDefaultWhitelistedCwCodeHashesForDelegateCall`: both
decoding errors are discarded. -/
def generateDefaultWhitelistedCwCodeHashesForDelegateCall : List Bytes :=
  let cw20 := (hexDecodeString "A25D78D7ACD2EE47CC39C224E162FE79B53E6BBE6ED2A56E8C0A86593EBE6102").1
  let cw721 := (hexDecodeString "94CDD9C3E85C26F7CEC43C23BFB4B3B2B2D71A0A8D85C58DF12FFEC0741FEBC8").1
  [cw20, cw721]

def DefaultWhitelistedCodeHashesBankSend (nativeHashHex : String) : List String :=
  generateDefaultWhitelistedCodeHashesBankSend nativeHashHex

def DefaultWhitelistedCwCodeHashesForDelegateCall : List Bytes :=
  generateDefaultWhitelistedCwCodeHashesForDelegateCall

/-! ## The Parameter Set -/

/-- The record `Params` (declared in the generated protobuf code): the eight
fields with the static types the validators and the defaults give them. -/
structure Params (CC : Type) where
  BaseDenom : String
  PriorityNormalizer : Dec
  BaseFeePerGas : Dec
  MinimumFeePerGas : Dec
  ChainConfig : CC
  ChainId : SdkInt
  WhitelistedCodehashesBankSend : List String
  WhitelistedCwCodeHashesForDelegateCall : List Bytes
deriving DecidableEq, Repr

/-- Function `DefaultParams`. The default chain configuration
(`DefaultChainConfig()`) and the digest of the embedded artifact are the two
inputs that come from outside this file of the program. -/
def DefaultParams {CC : Type} (DefaultChainConfig : CC) (nativeHashHex : String) : Params CC :=
  { BaseDenom := DefaultBaseDenom
    PriorityNormalizer := DefaultPriorityNormalizer
    BaseFeePerGas := DefaultBaseFeePerGas
    MinimumFeePerGas := DefaultMinFeePerGas
    ChainConfig := DefaultChainConfig
    ChainId := DefaultChainID
    WhitelistedCodehashesBankSend := DefaultWhitelistedCodeHashesBankSend nativeHashHex
    WhitelistedCwCodeHashesForDelegateCall := DefaultWhitelistedCwCodeHashesForDelegateCall }

/-! ## Per-field validators -/

section Validators

variable {CC E : Type}

def validateBaseDenom (i : Value CC) : Option (Error CC E) :=
  match i with
  | .string v =>
    if v = "" then some (.new "empty base denom")
    else none
  | _ => some (.errorf "invalid parameter type: %T" i)

def validatePriorityNormalizer (i : Value CC) : Option (Error CC E) :=
  match i with
  | .Dec v =>
    if !v.IsPositive then some (.errorf "nonpositive priority normalizer: %d" (.Dec v))
    else none
  | _ => some (.errorf "invalid parameter type: %T" i)

def validateBaseFeePerGas (i : Value CC) : Option (Error CC E) :=
  match i with
  | .Dec v =>
    if v.IsNegative then some (.errorf "negative base fee per gas: %d" (.Dec v))
    else none
  | _ => some (.errorf "invalid parameter type: %T" i)

def validateMinFeePerGas (i : Value CC) : Option (Error CC E) :=
  match i with
  | .Dec v =>
    if v.IsNegative then some (.errorf "negative min fee per gas: %d" (.Dec v))
    else none
  | _ => some (.errorf "invalid parameter type: %T" i)

/-- Function `validateChainConfig`; `ccValidate` is the method `Validate` of the
chain configuration. -/
def validateChainConfig (ccValidate : CC → Option E) (i : Value CC) : Option (Error CC E) :=
  match i with
  | .ChainConfig v => (ccValidate v).map .nested
  | _ => some (.errorf "invalid parameter type: %T" i)

def validateChainID (i : Value CC) : Option (Error CC E) :=
  match i with
  | .Int v =>
    if v.IsNegative then some (.errorf "negative min fee per gas: %d" (.Int v))
    else none
  | _ => some (.errorf "invalid parameter type: %T" i)

def validateWhitelistedCodeHashesBankSend (i : Value CC) : Option (Error CC E) :=
  match i with
  | .stringSlice _ => none
  | _ => some (.errorf "invalid parameter type: %T" i)

def validateWhitelistedCwHashesForDelegateCall (i : Value CC) : Option (Error CC E) :=
  match i with
  | .bytesSlice _ => none
  | _ => some (.errorf "invalid parameter type: %T" i)

/-! ## Aggregate validation -/

/-- Method `Params.Validate`. -/
def Params.Validate (ccValidate : CC → Option E) (p : Params CC) : Option (Error CC E) :=
  match validateBaseDenom (.string p.BaseDenom) with
  | some err => some err
  | none =>
  match validatePriorityNormalizer (.Dec p.PriorityNormalizer) with
  | some err => some err
  | none =>
  match validateBaseFeePerGas (.Dec p.BaseFeePerGas) with
  | some err => some err
  | none =>
  match validateMinFeePerGas (.Dec p.MinimumFeePerGas) with
  | some err => some err
  | none =>
  if p.MinimumFeePerGas.LT p.BaseFeePerGas then
    some (.new "minimum fee cannot be lower than base fee")
  else
  match validateChainID (.Int p.ChainId) with
  | some err => some err
  | none =>
  match validateChainConfig ccValidate (.ChainConfig p.ChainConfig) with
  | some err => some err
  | none =>
  match validateWhitelistedCodeHashesBankSend (.stringSlice p.WhitelistedCodehashesBankSend) with
  | some err => some err
  | none =>
  validateWhitelistedCwHashesForDelegateCall (.bytesSlice p.WhitelistedCwCodeHashesForDelegateCall)

end Validators

/-! ## Bindings and the key registry -/

/-- Address of one field of a Parameter Set (`&p.BaseDenom`, ...). -/
inductive FieldPtr where
  | BaseDenom
  | PriorityNormalizer
  | BaseFeePerGas
  | MinimumFeePerGas
  | ChainConfig
  | ChainId
  | WhitelistedCodehashesBankSend
  | WhitelistedCwCodeHashesForDelegateCall
deriving DecidableEq, Repr

/-- Static type of the field an address points to. -/
def FieldPtr.elemType : FieldPtr → GoType
  | .BaseDenom => .string
  | .PriorityNormalizer => .Dec
  | .BaseFeePerGas => .Dec
  | .MinimumFeePerGas => .Dec
  | .ChainConfig => .ChainConfig
  | .ChainId => .Int
  | .WhitelistedCodehashesBankSend => .stringSlice
  | .WhitelistedCwCodeHashesForDelegateCall => .bytesSlice

/-- Reading a field through its address. -/
def Params.load {CC : Type} (p : Params CC) : FieldPtr → Value CC
  | .BaseDenom => .string p.BaseDenom
  | .PriorityNormalizer => .Dec p.PriorityNormalizer
  | .BaseFeePerGas => .Dec p.BaseFeePerGas
  | .MinimumFeePerGas => .Dec p.MinimumFeePerGas
  | .ChainConfig => .ChainConfig p.ChainConfig
  | .ChainId => .Int p.ChainId
  | .WhitelistedCodehashesBankSend => .stringSlice p.WhitelistedCodehashesBankSend
  | .WhitelistedCwCodeHashesForDelegateCall =>
    .bytesSlice p.WhitelistedCwCodeHashesForDelegateCall

/-- Writing one field through its address, the other seven fields unchanged. A
value whose dynamic type is not the field's type cannot be stored. -/
def Params.store {CC : Type} (p : Params CC) : FieldPtr → Value CC → Option (Params CC)
  | .BaseDenom, .string v => some { p with BaseDenom := v }
  | .PriorityNormalizer, .Dec v => some { p with PriorityNormalizer := v }
  | .BaseFeePerGas, .Dec v => some { p with BaseFeePerGas := v }
  | .MinimumFeePerGas, .Dec v => some { p with MinimumFeePerGas := v }
  | .ChainConfig, .ChainConfig v => some { p with ChainConfig := v }
  | .ChainId, .Int v => some { p with ChainId := v }
  | .WhitelistedCodehashesBankSend, .stringSlice v =>
    some { p with WhitelistedCodehashesBankSend := v }
  | .WhitelistedCwCodeHashesForDelegateCall, .bytesSlice v =>
    some { p with WhitelistedCwCodeHashesForDelegateCall := v }
  | _, _ => none

/-- The triple `paramtypes.ParamSetPair`: storage key, address of the bound
field, and validator. -/
structure ParamSetPair (CC E : Type) where
  Key : Bytes
  Value : FieldPtr
  ValidatorFn : EvmTypes.Value CC → Option (Error CC E)

/-- Constructor `paramtypes.NewParamSetPair`. -/
def NewParamSetPair {CC E : Type} (key : Bytes) (value : FieldPtr)
    (vfn : Value CC → Option (Error CC E)) : ParamSetPair CC E :=
  ⟨key, value, vfn⟩

/-- Method `Params.ParamSetPairs`. The receiver is only used for the addresses
of its fields. -/
def Params.ParamSetPairs {CC E : Type} (ccValidate : CC → Option E) (_p : Params CC) :
    List (ParamSetPair CC E) :=
  [ NewParamSetPair KeyBaseDenom .BaseDenom validateBaseDenom,
    NewParamSetPair KeyPriorityNormalizer .PriorityNormalizer validatePriorityNormalizer,
    NewParamSetPair KeyBaseFeePerGas .BaseFeePerGas validateBaseFeePerGas,
    NewParamSetPair KeyMinFeePerGas .MinimumFeePerGas validateMinFeePerGas,
    NewParamSetPair KeyChainConfig .ChainConfig (validateChainConfig ccValidate),
    NewParamSetPair KeyChainID .ChainId validateChainID,
    NewParamSetPair KeyWhitelistedCodeHashesBankSend .WhitelistedCodehashesBankSend
      validateWhitelistedCodeHashesBankSend,
    NewParamSetPair KeyWhitelistedCwCodeHashesForDelegateCall
      .WhitelistedCwCodeHashesForDelegateCall validateWhitelistedCwHashesForDelegateCall ]

/-- Entry of the key registry: the type and the validator registered for a key. -/
structure KeyAttribute (CC E : Type) where
  ty : GoType
  vfn : Value CC → Option (Error CC E)

/-- Fail-fast conditions of the key registry. -/
inductive RegistryPanic where
  | emptyKey
  | nonAlphanumericKey
  | duplicateKey
deriving DecidableEq, Repr

/-- Modelled from the spec: the registry `paramtypes.KeyTable` of the external
parameter store is not part of the source. It maps each registered key to its
validator, in registration order here. -/
abbrev KeyTable (CC E : Type) := List (Bytes × KeyAttribute CC E)

/-- Keys registered in a table. -/
def KeyTable.keys {CC E : Type} (t : KeyTable CC E) : List Bytes := t.map Prod.fst

/-- Bytes of the ASCII letters and digits. -/
def isAlphaNumericByte (b : UInt8) : Bool :=
  (48 ≤ b.toNat && b.toNat ≤ 57) || (65 ≤ b.toNat && b.toNat ≤ 90) ||
    (97 ≤ b.toNat && b.toNat ≤ 122)

/-- Modelled from the spec: the empty registry `paramtypes.NewKeyTable()`. -/
def NewKeyTable {CC E : Type} : KeyTable CC E := []

/-- Modelled from the spec: registration of one binding, `KeyTable.RegisterType`
of the external parameter store. Registering the same key twice fails fast. The
store also rejects an empty key and a key with a byte that is not an ASCII
letter or digit; both guards are kept, they only add fail-fast conditions. -/
def KeyTable.RegisterType {CC E : Type} (t : KeyTable CC E) (psp : ParamSetPair CC E) :
    Except RegistryPanic (KeyTable CC E) :=
  if psp.Key.length = 0 then .error .emptyKey
  else if !psp.Key.all isAlphaNumericByte then .error .nonAlphanumericKey
  else if t.keys.contains psp.Key then .error .duplicateKey
  else .ok (t ++ [(psp.Key, ⟨psp.Value.elemType, psp.ValidatorFn⟩)])

/-- Modelled from the spec: `KeyTable.RegisterParamSet` of the external parameter
store registers the bindings of a Parameter Set one after the other. -/
def KeyTable.RegisterParamSet {CC E : Type} (t : KeyTable CC E)
    (pairs : List (ParamSetPair CC E)) : Except RegistryPanic (KeyTable CC E) :=
  pairs.foldlM KeyTable.RegisterType t

/-- Function `ParamKeyTable`. The argument `empty` is the zero value `Params{}`
whose field addresses are registered; its contents are never read. -/
def ParamKeyTable {CC E : Type} (ccValidate : CC → Option E) (empty : Params CC) :
    Except RegistryPanic (KeyTable CC E) :=
  KeyTable.RegisterParamSet NewKeyTable (Params.ParamSetPairs ccValidate empty)

/-! ## The order of the checks, as specified -/

section Specification

variable {CC E : Type}

/-- The cross-field rule in the specification's words: the minimum fee is at
least the base fee, and a violation is the error `InconsistentFees`. -/
def crossFieldCheck (p : Params CC) : Option (Error CC E) :=
  if p.MinimumFeePerGas.GTE p.BaseFeePerGas then none
  else some (.new "minimum fee cannot be lower than base fee")

/-- The nine checks of the aggregate validation in the specified sequence:
BaseDenom, PriorityNormalizer, BaseFeePerGas, MinimumFeePerGas, the cross-field
rule, ChainId, ChainConfig and the two whitelists. -/
def Params.checks (ccValidate : CC → Option E) (p : Params CC) : List (Option (Error CC E)) :=
  [ validateBaseDenom (.string p.BaseDenom),
    validatePriorityNormalizer (.Dec p.PriorityNormalizer),
    validateBaseFeePerGas (.Dec p.BaseFeePerGas),
    validateMinFeePerGas (.Dec p.MinimumFeePerGas),
    crossFieldCheck p,
    validateChainID (.Int p.ChainId),
    validateChainConfig ccValidate (.ChainConfig p.ChainConfig),
    validateWhitelistedCodeHashesBankSend (.stringSlice p.WhitelistedCodehashesBankSend),
    validateWhitelistedCwHashesForDelegateCall
      (.bytesSlice p.WhitelistedCwCodeHashesForDelegateCall) ]

/-- Result of the first failing check of a sequence, `none` when all pass. -/
def firstFailure {α : Type} : List (Option α) → Option α
  | [] => none
  | some e :: _ => some e
  | none :: rest => firstFailure rest

end Specification

/-! ## A sample instance of the external parameters -/

/-- A sample chain configuration: one block number, valid when not negative. -/
structure SampleChainConfig where
  block : Int
deriving DecidableEq, Repr

/-- The sample chain configuration's own validation. -/
def SampleChainConfig.Validate (c : SampleChainConfig) : Option String :=
  if c.block < 0 then some "block cannot be negative" else none

/-- Default Parameter Set over the sample chain configuration. -/
def sampleDefaultParams : Params SampleChainConfig :=
  DefaultParams ⟨0⟩ "0x00"

/-- Sample Parameter Set: the default one with the base fee raised to twice the
default minimum fee. -/
def sampleRaisedBaseFee : Params SampleChainConfig :=
  { sampleDefaultParams with BaseFeePerGas := NewDec 2000000000 }

/-- Sample Parameter Set with an empty BaseDenom and a zero PriorityNormalizer. -/
def sampleEmptyDenom : Params SampleChainConfig :=
  { sampleDefaultParams with BaseDenom := "", PriorityNormalizer := NewDec 0 }

/-- Sample Parameter Set with the minimum fee below the base fee and a negative
ChainId. -/
def sampleLowMinFee : Params SampleChainConfig :=
  { sampleDefaultParams with
    BaseFeePerGas := NewDec 2, MinimumFeePerGas := NewDec 1, ChainId := NewInt (-1) }

/-- Sample Parameter Set whose base fee equals its minimum fee. -/
def sampleEqualFees : Params SampleChainConfig :=
  { sampleDefaultParams with BaseFeePerGas := DefaultMinFeePerGas }

/-- Sample Parameter Set whose base fee is one smallest decimal step above its
minimum fee. -/
def sampleBaseFeeOneStepAbove : Params SampleChainConfig :=
  { sampleDefaultParams with BaseFeePerGas := DefaultMinFeePerGas.Add SmallestDec }

/-- Sample Parameter Set: the default one with the ChainId set to -1. -/
def sampleNegativeChainId : Params SampleChainConfig :=
  { sampleDefaultParams with ChainId := NewInt (-1) }

/-- Sample Parameter Set: the default one with the minimum fee set to -1. -/
def sampleNegativeMinFee : Params SampleChainConfig :=
  { sampleDefaultParams with MinimumFeePerGas := NewDec (-1) }

/-- Sample Parameter Set: the default one with a chain configuration that its
own validation rejects. -/
def sampleInvalidChainConfig : Params SampleChainConfig :=
  { sampleDefaultParams with ChainConfig := ⟨-1⟩ }

/-- Sample Parameter Set: the default one with other whitelists, an empty one
and one with a duplicated, short, non-hexadecimal entry. -/
def sampleOtherWhitelists : Params SampleChainConfig :=
  { sampleDefaultParams with
    WhitelistedCodehashesBankSend := ["zz", "zz"],
    WhitelistedCwCodeHashesForDelegateCall := [] }

/-! ## Properties stated about the bindings and the validators -/

section Properties

variable {CC E : Type}

/-- The eight storage keys in the order of the bindings. -/
def storageKeys : List Bytes :=
  [ KeyBaseDenom, KeyPriorityNormalizer, KeyBaseFeePerGas, KeyMinFeePerGas, KeyChainConfig,
    KeyChainID, KeyWhitelistedCodeHashesBankSend, KeyWhitelistedCwCodeHashesForDelegateCall ]

/-- Preservation of the fee invariant by field-by-field mutation: from a
Parameter Set accepted by `Params.Validate`, writing through any binding a value
that the binding's own validator accepts gives a Parameter Set whose minimum fee
is still at least its base fee. -/
def FeeInvariantPreservedByFieldUpdate (ccValidate : CC → Option E) : Prop :=
  ∀ (p : Params CC) (k : Nat) (b : ParamSetPair CC E) (v : Value CC) (p' : Params CC),
    p.Validate ccValidate = none →
    (p.ParamSetPairs ccValidate)[k]? = some b →
    b.ValidatorFn v = none →
    p.store b.Value v = some p' →
    p'.BaseFeePerGas.i ≤ p'.MinimumFeePerGas.i

/-- A validator type-checks its argument against `expected`: on a value of any
other dynamic type it fails with the `InvalidType` error whose operand is that
value, so that the reported type is the observed one; on a value of the expected
type its result is never an `InvalidType` error. -/
def TypeChecked (validate : Value CC → Option (Error CC E)) (expected : GoType) : Prop :=
  ∀ i : Value CC,
    (i.goType ≠ expected →
      validate i = some (.errorf "invalid parameter type: %T" i) ∧
      (validate i).map Error.kind = some .InvalidType ∧
      (validate i).bind Error.reportedType = some i.goType) ∧
    (i.goType = expected → (validate i).map Error.kind ≠ some .InvalidType)

end Properties

/-! ## Helper lemmas -/

section Lemmas

variable {CC E : Type}

theorem Dec_IsPositive_iff (d : Dec) : d.IsPositive = true ↔ 0 < d.i := by
  simp [Dec.IsPositive, Int.sign_eq_one_iff_pos]

theorem Dec_IsNegative_iff (d : Dec) : d.IsNegative = true ↔ d.i < 0 := by
  simp [Dec.IsNegative, Int.sign_eq_neg_one_iff_neg]

theorem SdkInt_IsNegative_iff (v : SdkInt) : v.IsNegative = true ↔ v.i < 0 := by
  simp [SdkInt.IsNegative, Int.sign_eq_neg_one_iff_neg]

theorem Dec_LT_iff (d d2 : Dec) : d.LT d2 = true ↔ d.i < d2.i := by
  simp [Dec.LT]

theorem Dec_GTE_iff (d d2 : Dec) : d.GTE d2 = true ↔ d2.i ≤ d.i := by
  simp [Dec.GTE]

theorem Dec_GTE_eq_not_LT (d d2 : Dec) : d.GTE d2 = !d.LT d2 := by
  by_cases h : d.i < d2.i
  · simp [Dec.GTE, Dec.LT, h]
  · simp [Dec.GTE, Dec.LT, h, Int.not_lt.mp h]

theorem firstFailure_eq_some_iff {α : Type} (l : List (Option α)) (e : α) :
    firstFailure l = some e ↔
      ∃ k : Nat, l[k]? = some (some e) ∧ ∀ j : Nat, j < k → l[j]? = some none := by
  induction l with
  | nil => simp [firstFailure]
  | cons a rest ih =>
    cases a with
    | some x =>
      simp only [firstFailure, Option.some.injEq]
      constructor
      · intro h
        exact ⟨0, by simp [h], by intro j hj; omega⟩
      · rintro ⟨k, hk, hfirst⟩
        cases k with
        | zero => simpa using hk
        | succ k =>
          have h0 := hfirst 0 (by omega)
          simp at h0
    | none =>
      simp only [firstFailure, ih]
      constructor
      · rintro ⟨k, hk, hfirst⟩
        refine ⟨k + 1, by simpa using hk, ?_⟩
        intro j hj
        cases j with
        | zero => simp
        | succ j => simpa using hfirst j (by omega)
      · rintro ⟨k, hk, hfirst⟩
        cases k with
        | zero => simp at hk
        | succ k =>
          refine ⟨k, by simpa using hk, ?_⟩
          intro j hj
          simpa using hfirst (j + 1) (by omega)

theorem Validate_eq_firstFailure (ccValidate : CC → Option E) (p : Params CC) :
    p.Validate ccValidate = firstFailure (p.checks ccValidate) := by
  unfold Params.Validate Params.checks crossFieldCheck
  rw [Dec_GTE_eq_not_LT]
  cases validateBaseDenom (Value.string p.BaseDenom) <;>
  cases validatePriorityNormalizer (Value.Dec p.PriorityNormalizer) <;>
  cases validateBaseFeePerGas (Value.Dec p.BaseFeePerGas) <;>
  cases validateMinFeePerGas (Value.Dec p.MinimumFeePerGas) <;>
  cases p.MinimumFeePerGas.LT p.BaseFeePerGas <;>
  cases validateChainID (Value.Int p.ChainId) <;>
  cases validateChainConfig ccValidate (Value.ChainConfig p.ChainConfig) <;>
  cases validateWhitelistedCodeHashesBankSend
    (Value.stringSlice p.WhitelistedCodehashesBankSend) <;>
  cases validateWhitelistedCwHashesForDelegateCall
    (Value.bytesSlice p.WhitelistedCwCodeHashesForDelegateCall) <;>
  simp [firstFailure]

theorem pairs_getElem?_cases (ccValidate : CC → Option E) (p : Params CC) (k : Nat)
    (b : ParamSetPair CC E) (hb : (p.ParamSetPairs ccValidate)[k]? = some b) :
    b = NewParamSetPair KeyBaseDenom .BaseDenom validateBaseDenom ∨
    b = NewParamSetPair KeyPriorityNormalizer .PriorityNormalizer validatePriorityNormalizer ∨
    b = NewParamSetPair KeyBaseFeePerGas .BaseFeePerGas validateBaseFeePerGas ∨
    b = NewParamSetPair KeyMinFeePerGas .MinimumFeePerGas validateMinFeePerGas ∨
    b = NewParamSetPair KeyChainConfig .ChainConfig (validateChainConfig ccValidate) ∨
    b = NewParamSetPair KeyChainID .ChainId validateChainID ∨
    b = NewParamSetPair KeyWhitelistedCodeHashesBankSend .WhitelistedCodehashesBankSend
      validateWhitelistedCodeHashesBankSend ∨
    b = NewParamSetPair KeyWhitelistedCwCodeHashesForDelegateCall
      .WhitelistedCwCodeHashesForDelegateCall validateWhitelistedCwHashesForDelegateCall := by
  have hmem := List.getElem?_mem hb
  simpa [Params.ParamSetPairs] using hmem

theorem Validate_eq_none_iff (ccValidate : CC → Option E) (p : Params CC) :
    p.Validate ccValidate = none ↔
      ((validateBaseDenom (.string p.BaseDenom) : Option (Error CC E)) = none ∧
       (validatePriorityNormalizer (.Dec p.PriorityNormalizer) : Option (Error CC E)) = none ∧
       (validateBaseFeePerGas (.Dec p.BaseFeePerGas) : Option (Error CC E)) = none ∧
       (validateMinFeePerGas (.Dec p.MinimumFeePerGas) : Option (Error CC E)) = none ∧
       (validateChainID (.Int p.ChainId) : Option (Error CC E)) = none ∧
       validateChainConfig ccValidate (.ChainConfig p.ChainConfig) = none ∧
       (validateWhitelistedCodeHashesBankSend
          (.stringSlice p.WhitelistedCodehashesBankSend) : Option (Error CC E)) = none ∧
       (validateWhitelistedCwHashesForDelegateCall
          (.bytesSlice p.WhitelistedCwCodeHashesForDelegateCall) : Option (Error CC E)) = none) ∧
      p.BaseFeePerGas.i ≤ p.MinimumFeePerGas.i := by
  unfold Params.Validate
  cases h1 : (validateBaseDenom (.string p.BaseDenom) : Option (Error CC E)) <;>
  cases h2 : (validatePriorityNormalizer (.Dec p.PriorityNormalizer) : Option (Error CC E)) <;>
  cases h3 : (validateBaseFeePerGas (.Dec p.BaseFeePerGas) : Option (Error CC E)) <;>
  cases h4 : (validateMinFeePerGas (.Dec p.MinimumFeePerGas) : Option (Error CC E)) <;>
  cases h5 : (validateChainID (.Int p.ChainId) : Option (Error CC E)) <;>
  cases h6 : validateChainConfig ccValidate (.ChainConfig p.ChainConfig) <;>
  cases h7 : (validateWhitelistedCodeHashesBankSend
    (.stringSlice p.WhitelistedCodehashesBankSend) : Option (Error CC E)) <;>
  by_cases h8 : p.MinimumFeePerGas.i < p.BaseFeePerGas.i <;>
  simp [Dec.LT, h8, Int.not_lt.mp]

theorem typeChecked_all (ccValidate : CC → Option E) :
    TypeChecked (validateBaseDenom : Value CC → Option (Error CC E)) .string ∧
    TypeChecked (validatePriorityNormalizer : Value CC → Option (Error CC E)) .Dec ∧
    TypeChecked (validateBaseFeePerGas : Value CC → Option (Error CC E)) .Dec ∧
    TypeChecked (validateMinFeePerGas : Value CC → Option (Error CC E)) .Dec ∧
    TypeChecked (validateChainConfig ccValidate) .ChainConfig ∧
    TypeChecked (validateChainID : Value CC → Option (Error CC E)) .Int ∧
    TypeChecked (validateWhitelistedCodeHashesBankSend : Value CC → Option (Error CC E))
      .stringSlice ∧
    TypeChecked (validateWhitelistedCwHashesForDelegateCall : Value CC → Option (Error CC E))
      .bytesSlice := by
  refine ⟨?_, ?_, ?_, ?_, ?_, ?_, ?_, ?_⟩ <;> intro i <;> cases i <;>
    simp [validateBaseDenom, validatePriorityNormalizer, validateBaseFeePerGas,
      validateMinFeePerGas, validateChainConfig, validateChainID,
      validateWhitelistedCodeHashesBankSend, validateWhitelistedCwHashesForDelegateCall,
      Value.goType, Error.kind, Error.reportedType]

end Lemmas

/-! ## Aggregate validation -/

section Aggregate

variable {CC E : Type}

/-- C1: `Params.Validate` succeeds exactly when each of the eight per-field
validators succeeds on the corresponding field and the minimum fee is at least
the base fee. -/
theorem Validate_succeeds_iff (ccValidate : CC → Option E) (p : Params CC) :
    p.Validate ccValidate = none ↔
      ((validateBaseDenom (.string p.BaseDenom) : Option (Error CC E)) = none ∧
       (validatePriorityNormalizer (.Dec p.PriorityNormalizer) : Option (Error CC E)) = none ∧
       (validateBaseFeePerGas (.Dec p.BaseFeePerGas) : Option (Error CC E)) = none ∧
       (validateMinFeePerGas (.Dec p.MinimumFeePerGas) : Option (Error CC E)) = none ∧
       (validateChainID (.Int p.ChainId) : Option (Error CC E)) = none ∧
       validateChainConfig ccValidate (.ChainConfig p.ChainConfig) = none ∧
       (validateWhitelistedCodeHashesBankSend
          (.stringSlice p.WhitelistedCodehashesBankSend) : Option (Error CC E)) = none ∧
       (validateWhitelistedCwHashesForDelegateCall
          (.bytesSlice p.WhitelistedCwCodeHashesForDelegateCall) : Option (Error CC E)) = none) ∧
      p.BaseFeePerGas.i ≤ p.MinimumFeePerGas.i := by
  rw [Validate_eq_firstFailure]
  unfold Params.checks crossFieldCheck
  cases (validateBaseDenom (.string p.BaseDenom) : Option (Error CC E)) <;>
  cases (validatePriorityNormalizer (.Dec p.PriorityNormalizer) : Option (Error CC E)) <;>
  cases (validateBaseFeePerGas (.Dec p.BaseFeePerGas) : Option (Error CC E)) <;>
  cases (validateMinFeePerGas (.Dec p.MinimumFeePerGas) : Option (Error CC E)) <;>
  cases (validateChainID (.Int p.ChainId) : Option (Error CC E)) <;>
  cases validateChainConfig ccValidate (.ChainConfig p.ChainConfig) <;>
  cases (validateWhitelistedCodeHashesBankSend
    (.stringSlice p.WhitelistedCodehashesBankSend) : Option (Error CC E)) <;>
  cases (validateWhitelistedCwHashesForDelegateCall
    (.bytesSlice p.WhitelistedCwCodeHashesForDelegateCall) : Option (Error CC E)) <;>
  by_cases h : p.BaseFeePerGas.i ≤ p.MinimumFeePerGas.i <;>
  simp [firstFailure, Dec.GTE, h]

/-- C2: the default Parameter Set passes `Params.Validate`, given that the
default chain configuration passes its own validation. -/
theorem Validate_DefaultParams (ccValidate : CC → Option E) (DefaultChainConfig : CC)
    (nativeHashHex : String) (hcc : ccValidate DefaultChainConfig = none) :
    (DefaultParams DefaultChainConfig nativeHashHex).Validate ccValidate = none := by
  have hpos : DefaultPriorityNormalizer.IsPositive = true := by decide
  have hbase : DefaultBaseFeePerGas.IsNegative = false := by decide
  have hmin : DefaultMinFeePerGas.IsNegative = false := by decide
  have hlt : DefaultMinFeePerGas.LT DefaultBaseFeePerGas = false := by decide
  have hid : DefaultChainID.IsNegative = false := by decide
  have hdenom : DefaultBaseDenom ≠ "" := by decide
  simp [Params.Validate, DefaultParams, validateBaseDenom, validatePriorityNormalizer,
    validateBaseFeePerGas, validateMinFeePerGas, validateChainID, validateChainConfig,
    validateWhitelistedCodeHashesBankSend, validateWhitelistedCwHashesForDelegateCall,
    hpos, hbase, hmin, hlt, hid, hdenom, hcc]

/-- Witness of C2 on the sample chain configuration. -/
theorem Validate_DefaultParams_witness :
    SampleChainConfig.Validate ⟨0⟩ = none ∧
      sampleDefaultParams.Validate SampleChainConfig.Validate = none :=
  ⟨by decide, Validate_DefaultParams SampleChainConfig.Validate ⟨0⟩ "0x00" (by decide)⟩

/-- C3: when `Params.Validate` fails, its error is the error of the first
failing check of the specified sequence (BaseDenom, PriorityNormalizer,
BaseFeePerGas, MinimumFeePerGas, the cross-field rule, ChainId, ChainConfig, the
two whitelists), whatever the later checks would give. In particular an empty
BaseDenom gives `EmptyValue` whatever the PriorityNormalizer is, and a minimum fee
below the base fee, the four checks before it passing, gives `InconsistentFees`
whatever the ChainId is. -/
theorem Validate_first_failure (ccValidate : CC → Option E) (p : Params CC) :
    (∀ e, p.Validate ccValidate = some e ↔
      ∃ k : Nat, (p.checks ccValidate)[k]? = some (some e) ∧
        ∀ j : Nat, j < k → (p.checks ccValidate)[j]? = some none) ∧
    (p.BaseDenom = "" →
      p.Validate ccValidate = some (.new "empty base denom") ∧
      (p.Validate ccValidate).map Error.kind = some .EmptyValue) ∧
    (p.BaseDenom ≠ "" → 0 < p.PriorityNormalizer.i → 0 ≤ p.BaseFeePerGas.i →
      0 ≤ p.MinimumFeePerGas.i → p.MinimumFeePerGas.i < p.BaseFeePerGas.i →
      p.Validate ccValidate = some (.new "minimum fee cannot be lower than base fee") ∧
      (p.Validate ccValidate).map Error.kind = some .InconsistentFees) := by
  refine ⟨?_, ?_, ?_⟩
  · intro e
    rw [Validate_eq_firstFailure, firstFailure_eq_some_iff]
  · intro h
    have hv : p.Validate ccValidate = some (.new "empty base denom") := by
      simp [Params.Validate, validateBaseDenom, h]
    rw [hv]
    exact ⟨rfl, by simp [Error.kind]⟩
  · intro hd hpn hb hm hlt
    have hpos : p.PriorityNormalizer.IsPositive = true := (Dec_IsPositive_iff _).mpr hpn
    have hbn : p.BaseFeePerGas.IsNegative = false := by
      rw [← Bool.not_eq_true, Dec_IsNegative_iff]; omega
    have hmn : p.MinimumFeePerGas.IsNegative = false := by
      rw [← Bool.not_eq_true, Dec_IsNegative_iff]; omega
    have hl : p.MinimumFeePerGas.LT p.BaseFeePerGas = true := (Dec_LT_iff _ _).mpr hlt
    have hv : p.Validate ccValidate =
        some (.new "minimum fee cannot be lower than base fee") := by
      simp [Params.Validate, validateBaseDenom, validatePriorityNormalizer,
        validateBaseFeePerGas, validateMinFeePerGas, hd, hpos, hbn, hmn, hl]
    rw [hv]
    exact ⟨rfl, by simp [Error.kind]⟩

/-- Instance of C3 on two sample Parameter Sets: an empty BaseDenom with a zero
PriorityNormalizer is reported as the empty denomination, and a minimum fee below
the base fee with a negative ChainId as inconsistent fees. -/
theorem Validate_first_failure_witness :
    (sampleEmptyDenom.Validate SampleChainConfig.Validate).map Error.kind =
        some .EmptyValue ∧
      (sampleLowMinFee.Validate SampleChainConfig.Validate).map Error.kind =
        some .InconsistentFees :=
  ⟨((Validate_first_failure SampleChainConfig.Validate sampleEmptyDenom).2.1 (by decide)).2,
   ((Validate_first_failure SampleChainConfig.Validate sampleLowMinFee).2.2
      (by decide) (by decide) (by decide) (by decide) (by decide)).2⟩

/-- C4, as stated, fails: the default Parameter Set is accepted, the third
binding is the one of BaseFeePerGas, its validator accepts the decimal
2000000000, and after writing it the minimum fee 1000000000 is below the base
fee; `Params.Validate` rejects the result. -/
theorem fee_invariant_not_preserved :
    sampleDefaultParams.Validate SampleChainConfig.Validate = none ∧
    ((sampleDefaultParams.ParamSetPairs SampleChainConfig.Validate)[2]?.map
        fun b => (b.Key, b.Value, b.ValidatorFn (.Dec (NewDec 2000000000)))) =
      some (KeyBaseFeePerGas, FieldPtr.BaseFeePerGas, none) ∧
    sampleDefaultParams.store .BaseFeePerGas (.Dec (NewDec 2000000000)) =
      some sampleRaisedBaseFee ∧
    sampleRaisedBaseFee.MinimumFeePerGas.i < sampleRaisedBaseFee.BaseFeePerGas.i ∧
    sampleRaisedBaseFee.Validate SampleChainConfig.Validate =
      some (.new "minimum fee cannot be lower than base fee") ∧
    ¬ FeeInvariantPreservedByFieldUpdate SampleChainConfig.Validate := by
  refine ⟨by decide, by decide, by decide, by decide, by decide, ?_⟩
  intro h
  have hle := h sampleDefaultParams 2
    (NewParamSetPair KeyBaseFeePerGas .BaseFeePerGas validateBaseFeePerGas)
    (.Dec (NewDec 2000000000)) sampleRaisedBaseFee (by decide) rfl (by decide) (by decide)
  exact absurd hle (by decide)

/-- C4, amended: from a Parameter Set accepted by `Params.Validate`, a value
accepted by a binding's own validator can be written to the bound field, and the
result keeps the minimum fee at least the base fee exactly when
`Params.Validate` accepts it: always for the six bindings other than the two
fees, for BaseFeePerGas when the new value is at most the minimum fee, and for
MinimumFeePerGas when the new value is at least the base fee. -/
theorem fee_invariant_after_field_update (ccValidate : CC → Option E) (p : Params CC)
    (k : Nat) (b : ParamSetPair CC E) (v : Value CC)
    (hvalid : p.Validate ccValidate = none)
    (hb : (p.ParamSetPairs ccValidate)[k]? = some b)
    (hv : b.ValidatorFn v = none) :
    ∃ p', p.store b.Value v = some p' ∧
      (p'.BaseFeePerGas.i ≤ p'.MinimumFeePerGas.i ↔ p'.Validate ccValidate = none) ∧
      (b.Value ≠ .BaseFeePerGas → b.Value ≠ .MinimumFeePerGas →
        p'.BaseFeePerGas.i ≤ p'.MinimumFeePerGas.i) ∧
      (b.Value = .BaseFeePerGas → ∀ d, v = .Dec d →
        (p'.BaseFeePerGas.i ≤ p'.MinimumFeePerGas.i ↔ d.i ≤ p.MinimumFeePerGas.i)) ∧
      (b.Value = .MinimumFeePerGas → ∀ d, v = .Dec d →
        (p'.BaseFeePerGas.i ≤ p'.MinimumFeePerGas.i ↔ p.BaseFeePerGas.i ≤ d.i)) := by
  obtain ⟨⟨h1, h2, h3, h4, h5, h6, h7, h8⟩, hinv⟩ :=
    (Validate_eq_none_iff ccValidate p).mp hvalid
  rcases pairs_getElem?_cases ccValidate p k b hb with h | h | h | h | h | h | h | h <;>
    subst h <;> simp only [NewParamSetPair] at hv ⊢ <;> cases v <;>
    have hv2 := hv <;>
    simp [validateBaseDenom, validatePriorityNormalizer, validateBaseFeePerGas,
      validateMinFeePerGas, validateChainConfig, validateChainID,
      validateWhitelistedCodeHashesBankSend, validateWhitelistedCwHashesForDelegateCall] at hv <;>
    simp [Params.store, Validate_eq_none_iff, h1, h2, h3, h4, h5, h6, h7, h8, hinv, hv2]

/-- Witness of the amended C4: lowering the minimum fee of the default
Parameter Set to 5 through the fourth binding, whose validator accepts it. -/
theorem fee_invariant_after_field_update_witness :
    sampleDefaultParams.Validate SampleChainConfig.Validate = none ∧
    (validateMinFeePerGas (.Dec (NewDec 5)) :
      Option (Error SampleChainConfig String)) = none ∧
    ∃ p', sampleDefaultParams.store .MinimumFeePerGas (.Dec (NewDec 5)) = some p' ∧
      (p'.BaseFeePerGas.i ≤ p'.MinimumFeePerGas.i ↔
        p'.Validate SampleChainConfig.Validate = none) :=
  ⟨by decide, by decide,
   (fee_invariant_after_field_update SampleChainConfig.Validate sampleDefaultParams 3
      (NewParamSetPair KeyMinFeePerGas .MinimumFeePerGas validateMinFeePerGas)
      (.Dec (NewDec 5)) (by decide) rfl (by decide)).imp fun _ h => ⟨h.1, h.2.1⟩⟩

/-- C5: with a non-empty BaseDenom, a positive PriorityNormalizer and two
non-negative fees, equal fees never give the `InconsistentFees` error, and a base
fee above the minimum fee, be it by the smallest decimal step only, gives
exactly that error. -/
theorem Validate_fee_boundary (ccValidate : CC → Option E) (p : Params CC)
    (hd : p.BaseDenom ≠ "") (hpn : 0 < p.PriorityNormalizer.i)
    (hb : 0 ≤ p.BaseFeePerGas.i) (hm : 0 ≤ p.MinimumFeePerGas.i) :
    (p.BaseFeePerGas = p.MinimumFeePerGas →
      p.Validate ccValidate ≠ some (.new "minimum fee cannot be lower than base fee") ∧
      (p.Validate ccValidate).map Error.kind ≠ some .InconsistentFees) ∧
    (p.MinimumFeePerGas.i < p.BaseFeePerGas.i →
      p.Validate ccValidate = some (.new "minimum fee cannot be lower than base fee") ∧
      (p.Validate ccValidate).map Error.kind = some .InconsistentFees) ∧
    (p.BaseFeePerGas = p.MinimumFeePerGas.Add SmallestDec →
      p.Validate ccValidate = some (.new "minimum fee cannot be lower than base fee") ∧
      (p.Validate ccValidate).map Error.kind = some .InconsistentFees) := by
  have hpos : p.PriorityNormalizer.IsPositive = true := (Dec_IsPositive_iff _).mpr hpn
  have hbn : p.BaseFeePerGas.IsNegative = false := by
    rw [← Bool.not_eq_true, Dec_IsNegative_iff]; omega
  have hmn : p.MinimumFeePerGas.IsNegative = false := by
    rw [← Bool.not_eq_true, Dec_IsNegative_iff]; omega
  have hfail : p.MinimumFeePerGas.i < p.BaseFeePerGas.i →
      p.Validate ccValidate = some (.new "minimum fee cannot be lower than base fee") ∧
      (p.Validate ccValidate).map Error.kind = some .InconsistentFees := by
    intro hlt
    have hl : p.MinimumFeePerGas.LT p.BaseFeePerGas = true := (Dec_LT_iff _ _).mpr hlt
    have hv : p.Validate ccValidate =
        some (.new "minimum fee cannot be lower than base fee") := by
      simp [Params.Validate, validateBaseDenom, validatePriorityNormalizer,
        validateBaseFeePerGas, validateMinFeePerGas, hd, hpos, hbn, hmn, hl]
    rw [hv]
    exact ⟨rfl, by simp [Error.kind]⟩
  refine ⟨?_, hfail, ?_⟩
  · intro heq
    have hl : p.MinimumFeePerGas.LT p.BaseFeePerGas = false := by
      rw [← Bool.not_eq_true, Dec_LT_iff, heq]; omega
    have hv : p.Validate ccValidate =
        match (validateChainID (.Int p.ChainId) : Option (Error CC E)) with
        | some err => some err
        | none =>
          match validateChainConfig ccValidate (.ChainConfig p.ChainConfig) with
          | some err => some err
          | none => none := by
      simp [Params.Validate, validateBaseDenom, validatePriorityNormalizer,
        validateBaseFeePerGas, validateMinFeePerGas, validateWhitelistedCodeHashesBankSend,
        validateWhitelistedCwHashesForDelegateCall, hd, hpos, hbn, hmn, hl]
    rw [hv]
    unfold validateChainID validateChainConfig
    by_cases hneg : p.ChainId.IsNegative = true <;>
      cases hcc : ccValidate p.ChainConfig <;>
      simp [hneg, hcc, Error.kind]
  · intro heq
    apply hfail
    rw [heq]
    simp [Dec.Add, SmallestDec]

/-- Witness of C5 on the default Parameter Set with the base fee set to the
minimum fee, and to one smallest decimal step above it. -/
theorem Validate_fee_boundary_witness :
    (sampleEqualFees.BaseDenom ≠ "" ∧ 0 < sampleEqualFees.PriorityNormalizer.i ∧
      0 ≤ sampleEqualFees.BaseFeePerGas.i ∧ 0 ≤ sampleEqualFees.MinimumFeePerGas.i) ∧
    (sampleEqualFees.Validate SampleChainConfig.Validate).map Error.kind ≠
      some .InconsistentFees ∧
    (sampleBaseFeeOneStepAbove.Validate SampleChainConfig.Validate).map Error.kind =
      some .InconsistentFees :=
  ⟨by decide,
   ((Validate_fee_boundary SampleChainConfig.Validate sampleEqualFees
      (by decide) (by decide) (by decide) (by decide)).1 rfl).2,
   ((Validate_fee_boundary SampleChainConfig.Validate sampleBaseFeeOneStepAbove
      (by decide) (by decide) (by decide) (by decide)).2.2 rfl).2⟩

end Aggregate

/-! ## Per-field validators -/

section PerField

variable {CC E : Type}

/-- C6: each of the eight validators type-checks its argument against the type
of its field (string, decimal, decimal, decimal, chain configuration, big
integer, list of strings, list of byte strings): a value of another type gives
the `InvalidType` error reporting the observed type, a value of the expected
type never gives `InvalidType`. -/
theorem validators_type_checked (ccValidate : CC → Option E) :
    TypeChecked (validateBaseDenom : Value CC → Option (Error CC E)) .string ∧
    TypeChecked (validatePriorityNormalizer : Value CC → Option (Error CC E)) .Dec ∧
    TypeChecked (validateBaseFeePerGas : Value CC → Option (Error CC E)) .Dec ∧
    TypeChecked (validateMinFeePerGas : Value CC → Option (Error CC E)) .Dec ∧
    TypeChecked (validateChainConfig ccValidate) .ChainConfig ∧
    TypeChecked (validateChainID : Value CC → Option (Error CC E)) .Int ∧
    TypeChecked (validateWhitelistedCodeHashesBankSend : Value CC → Option (Error CC E))
      .stringSlice ∧
    TypeChecked (validateWhitelistedCwHashesForDelegateCall : Value CC → Option (Error CC E))
      .bytesSlice := by
  refine ⟨?_, ?_, ?_, ?_, ?_, ?_, ?_, ?_⟩ <;> intro i <;> cases i <;>
    simp [validateBaseDenom, validatePriorityNormalizer, validateBaseFeePerGas,
      validateMinFeePerGas, validateChainConfig, validateChainID,
      validateWhitelistedCodeHashesBankSend, validateWhitelistedCwHashesForDelegateCall,
      Value.goType, Error.kind, Error.reportedType]

/-- C10: `validatePriorityNormalizer` accepts a decimal exactly when it is
greater than zero and otherwise fails with `NonPositiveValue`; zero is rejected
and the smallest positive decimal is accepted. -/
theorem validatePriorityNormalizer_iff (v : Dec) :
    ((validatePriorityNormalizer (.Dec v) : Option (Error CC E)) = none ↔ 0 < v.i) ∧
    (¬ 0 < v.i →
      (validatePriorityNormalizer (.Dec v) : Option (Error CC E)) =
        some (.errorf "nonpositive priority normalizer: %d" (.Dec v)) ∧
      ((validatePriorityNormalizer (.Dec v) : Option (Error CC E)).map Error.kind) =
        some .NonPositiveValue) ∧
    ((validatePriorityNormalizer (.Dec (NewDec 0)) : Option (Error CC E)).map Error.kind) =
      some .NonPositiveValue ∧
    (validatePriorityNormalizer (.Dec SmallestDec) : Option (Error CC E)) = none := by
  have h0 : (NewDec 0).IsPositive = false := by decide
  have h1 : SmallestDec.IsPositive = true := by decide
  refine ⟨?_, ?_, ?_, ?_⟩
  · by_cases h : 0 < v.i
    · simp [validatePriorityNormalizer, (Dec_IsPositive_iff v).mpr h, h]
    · have hn : v.IsPositive = false := by
        rw [← Bool.not_eq_true, Dec_IsPositive_iff]; exact h
      simp [validatePriorityNormalizer, hn, h]
  · intro h
    have hn : v.IsPositive = false := by
      rw [← Bool.not_eq_true, Dec_IsPositive_iff]; exact h
    simp [validatePriorityNormalizer, hn, Error.kind]
  · simp [validatePriorityNormalizer, h0, Error.kind]
  · simp [validatePriorityNormalizer, h1]

end PerField

/-! ## Bindings and registry -/

section Bindings

variable {CC E : Type}

/-- C7: `Params.ParamSetPairs` returns exactly eight bindings, whose keys are
KeyBaseDenom, KeyPriorityNormalizer, KeyBaseFeePerGas, KeyMinFeePerGas,
KeyChainConfig, KeyChainID, KeyWhitelistedCodeHashesBankSend and
KeyWhitelistedCwCodeHashesForDelegateCall in this order, bound to the fields in
the order of the data model; the key sequence is the same for every Parameter
Set. -/
theorem ParamSetPairs_keys (ccValidate : CC → Option E) (p : Params CC) :
    (p.ParamSetPairs ccValidate).length = 8 ∧
    (p.ParamSetPairs ccValidate).map (fun b => b.Key) =
      [ KeyBaseDenom, KeyPriorityNormalizer, KeyBaseFeePerGas, KeyMinFeePerGas,
        KeyChainConfig, KeyChainID, KeyWhitelistedCodeHashesBankSend,
        KeyWhitelistedCwCodeHashesForDelegateCall ] ∧
    (p.ParamSetPairs ccValidate).map (fun b => b.Value) =
      [ .BaseDenom, .PriorityNormalizer, .BaseFeePerGas, .MinimumFeePerGas, .ChainConfig,
        .ChainId, .WhitelistedCodehashesBankSend, .WhitelistedCwCodeHashesForDelegateCall ] ∧
    (∀ q : Params CC, (q.ParamSetPairs ccValidate).map (fun b => b.Key) =
      (p.ParamSetPairs ccValidate).map (fun b => b.Key)) :=
  ⟨rfl, rfl, rfl, fun _ => rfl⟩

/-- C8: the eight storage keys are pairwise distinct, non-empty and made of
ASCII bytes only, and building the registry registers them in order, each exactly
once, without reaching a fail-fast condition. -/
theorem ParamKeyTable_registers_each_key_once (ccValidate : CC → Option E)
    (empty : Params CC) :
    storageKeys.Nodup ∧
    (∀ key ∈ storageKeys, key ≠ [] ∧ ∀ b ∈ key, b.toNat < 128) ∧
    ∃ t, ParamKeyTable ccValidate empty = .ok t ∧ t.keys = storageKeys ∧
      ∀ key ∈ storageKeys, t.keys.count key = 1 := by
  refine ⟨by decide, by decide, _, rfl, rfl, ?_⟩
  show ∀ key ∈ storageKeys, storageKeys.count key = 1
  decide

/-- C9: the validator of each binding, applied to the current value of the bound
field, is the check `Params.Validate` performs on that field; it never gives
`InvalidType`, and on a Parameter Set accepted by `Params.Validate` all eight
accept. -/
theorem ParamSetPairs_validators (ccValidate : CC → Option E) (p : Params CC) :
    (p.ParamSetPairs ccValidate).map (fun b => b.ValidatorFn (p.load b.Value)) =
      [ validateBaseDenom (.string p.BaseDenom),
        validatePriorityNormalizer (.Dec p.PriorityNormalizer),
        validateBaseFeePerGas (.Dec p.BaseFeePerGas),
        validateMinFeePerGas (.Dec p.MinimumFeePerGas),
        validateChainConfig ccValidate (.ChainConfig p.ChainConfig),
        validateChainID (.Int p.ChainId),
        validateWhitelistedCodeHashesBankSend (.stringSlice p.WhitelistedCodehashesBankSend),
        validateWhitelistedCwHashesForDelegateCall
          (.bytesSlice p.WhitelistedCwCodeHashesForDelegateCall) ] ∧
    (∀ b ∈ p.ParamSetPairs ccValidate,
      b.ValidatorFn (p.load b.Value) ∈ p.checks ccValidate ∧
      (p.load b.Value).goType = b.Value.elemType ∧
      (b.ValidatorFn (p.load b.Value)).map Error.kind ≠ some .InvalidType) ∧
    (p.Validate ccValidate = none →
      ∀ b ∈ p.ParamSetPairs ccValidate, b.ValidatorFn (p.load b.Value) = none) := by
  refine ⟨rfl, ?_, ?_⟩
  · intro b hb
    obtain ⟨k, hk⟩ := List.getElem?_of_mem hb
    have htc := typeChecked_all ccValidate
    rcases pairs_getElem?_cases ccValidate p k b hk with h | h | h | h | h | h | h | h <;>
      subst h <;> refine ⟨by simp [NewParamSetPair, Params.load, Params.checks], rfl, ?_⟩
    · exact (htc.1 (.string p.BaseDenom)).2 rfl
    · exact (htc.2.1 (.Dec p.PriorityNormalizer)).2 rfl
    · exact (htc.2.2.1 (.Dec p.BaseFeePerGas)).2 rfl
    · exact (htc.2.2.2.1 (.Dec p.MinimumFeePerGas)).2 rfl
    · exact (htc.2.2.2.2.1 (.ChainConfig p.ChainConfig)).2 rfl
    · exact (htc.2.2.2.2.2.1 (.Int p.ChainId)).2 rfl
    · exact (htc.2.2.2.2.2.2.1 (.stringSlice p.WhitelistedCodehashesBankSend)).2 rfl
    · exact (htc.2.2.2.2.2.2.2
        (.bytesSlice p.WhitelistedCwCodeHashesForDelegateCall)).2 rfl
  · intro hvalid b hb
    obtain ⟨⟨h1, h2, h3, h4, h5, h6, h7, h8⟩, _⟩ :=
      (Validate_eq_none_iff ccValidate p).mp hvalid
    obtain ⟨k, hk⟩ := List.getElem?_of_mem hb
    rcases pairs_getElem?_cases ccValidate p k b hk with h | h | h | h | h | h | h | h <;>
      subst h <;> simp [NewParamSetPair, Params.load, h1, h2, h3, h4, h5, h6, h7, h8]

end Bindings

/-! ## Range rules of the fields -/

section RangeRules

variable {CC E : Type}

/-- C11: a Parameter Set with an empty BaseDenom is rejected by
`Params.Validate` with `EmptyValue`, whatever its other seven fields are, and
`validateBaseDenom` accepts every non-empty string. -/
theorem Validate_empty_BaseDenom (ccValidate : CC → Option E) :
    (∀ p : Params CC, p.BaseDenom = "" →
      p.Validate ccValidate = some (.new "empty base denom") ∧
      (p.Validate ccValidate).map Error.kind = some .EmptyValue) ∧
    (∀ s : String, s ≠ "" →
      (validateBaseDenom (.string s) : Option (Error CC E)) = none) := by
  refine ⟨?_, ?_⟩
  · intro p h
    have hv : p.Validate ccValidate = some (.new "empty base denom") := by
      simp [Params.Validate, validateBaseDenom, h]
    rw [hv]
    exact ⟨rfl, by simp [Error.kind]⟩
  · intro s hs
    simp [validateBaseDenom, hs]

/-- Instance of C11: the sample set with an empty BaseDenom is rejected with
`EmptyValue`, and the one-character denomination `x` is accepted. -/
theorem Validate_empty_BaseDenom_witness :
    sampleEmptyDenom.BaseDenom = "" ∧
    (sampleEmptyDenom.Validate SampleChainConfig.Validate).map Error.kind =
      some .EmptyValue ∧
    (validateBaseDenom (.string "x") : Option (Error SampleChainConfig String)) = none :=
  ⟨rfl,
   ((Validate_empty_BaseDenom SampleChainConfig.Validate).1 sampleEmptyDenom rfl).2,
   (Validate_empty_BaseDenom SampleChainConfig.Validate).2 "x" (by decide)⟩

/-- C12: `validateChainID` fails with `NegativeValue` exactly on the integers
below zero and accepts every other integer; -1 is rejected, 0 and the default
713715 are accepted. -/
theorem validateChainID_iff (c : SdkInt) :
    (((validateChainID (.Int c) : Option (Error CC E)).map Error.kind) =
      some .NegativeValue ↔ c.i < 0) ∧
    (¬ c.i < 0 ↔ (validateChainID (.Int c) : Option (Error CC E)) = none) ∧
    (((validateChainID (.Int (NewInt (-1))) : Option (Error CC E)).map Error.kind) =
      some .NegativeValue) ∧
    (validateChainID (.Int (NewInt 0)) : Option (Error CC E)) = none ∧
    (validateChainID (.Int (NewInt 713715)) : Option (Error CC E)) = none ∧
    DefaultChainID = NewInt 713715 := by
  have hm1 : (NewInt (-1)).IsNegative = true := by decide
  have h0 : (NewInt 0).IsNegative = false := by decide
  have hd : (NewInt 713715).IsNegative = false := by decide
  refine ⟨?_, ?_, ?_, ?_, ?_, rfl⟩
  · by_cases h : c.i < 0
    · simp [validateChainID, (SdkInt_IsNegative_iff c).mpr h, h, Error.kind]
    · have hn : c.IsNegative = false := by
        rw [← Bool.not_eq_true, SdkInt_IsNegative_iff]; exact h
      simp [validateChainID, hn, h]
  · by_cases h : c.i < 0
    · simp [validateChainID, (SdkInt_IsNegative_iff c).mpr h, h]
    · have hn : c.IsNegative = false := by
        rw [← Bool.not_eq_true, SdkInt_IsNegative_iff]; exact h
      simp [validateChainID, hn, h]
  · simp [validateChainID, hm1, Error.kind]
  · simp [validateChainID, h0]
  · simp [validateChainID, hd]

/-- C13: `validateBaseFeePerGas` and `validateMinFeePerGas` each fail with
`NegativeValue` exactly on the decimals below zero; zero and every positive
decimal are accepted by both. -/
theorem validateFeePerGas_iff (v : Dec) :
    (((validateBaseFeePerGas (.Dec v) : Option (Error CC E)).map Error.kind) =
      some .NegativeValue ↔ v.i < 0) ∧
    (((validateMinFeePerGas (.Dec v) : Option (Error CC E)).map Error.kind) =
      some .NegativeValue ↔ v.i < 0) ∧
    (0 ≤ v.i ↔ (validateBaseFeePerGas (.Dec v) : Option (Error CC E)) = none) ∧
    (0 ≤ v.i ↔ (validateMinFeePerGas (.Dec v) : Option (Error CC E)) = none) ∧
    (validateBaseFeePerGas (.Dec (NewDec 0)) : Option (Error CC E)) = none ∧
    (validateMinFeePerGas (.Dec (NewDec 0)) : Option (Error CC E)) = none := by
  have h0 : (NewDec 0).IsNegative = false := by decide
  refine ⟨?_, ?_, ?_, ?_, ?_, ?_⟩
  · by_cases h : v.i < 0
    · simp [validateBaseFeePerGas, (Dec_IsNegative_iff v).mpr h, h, Error.kind]
    · have hn : v.IsNegative = false := by
        rw [← Bool.not_eq_true, Dec_IsNegative_iff]; exact h
      simp [validateBaseFeePerGas, hn, h]
  · by_cases h : v.i < 0
    · simp [validateMinFeePerGas, (Dec_IsNegative_iff v).mpr h, h, Error.kind]
    · have hn : v.IsNegative = false := by
        rw [← Bool.not_eq_true, Dec_IsNegative_iff]; exact h
      simp [validateMinFeePerGas, hn, h]
  · by_cases h : v.i < 0
    · simp [validateBaseFeePerGas, (Dec_IsNegative_iff v).mpr h, h]
    · have hn : v.IsNegative = false := by
        rw [← Bool.not_eq_true, Dec_IsNegative_iff]; exact h
      simp [validateBaseFeePerGas, hn, Int.not_lt.mp h]
  · by_cases h : v.i < 0
    · simp [validateMinFeePerGas, (Dec_IsNegative_iff v).mpr h, h]
    · have hn : v.IsNegative = false := by
        rw [← Bool.not_eq_true, Dec_IsNegative_iff]; exact h
      simp [validateMinFeePerGas, hn, Int.not_lt.mp h]
  · simp [validateBaseFeePerGas, h0]
  · simp [validateMinFeePerGas, h0]

end RangeRules

/-! ## Whitelists, chain configuration and defaults -/

section Delegation

variable {CC E : Type}

/-- C14: the two whitelist validators accept every list, whatever its entries,
and two Parameter Sets that differ only in their whitelists get the same result
from `Params.Validate`. -/
theorem Validate_whitelists_irrelevant (ccValidate : CC → Option E) (p q : Params CC)
    (hdenom : p.BaseDenom = q.BaseDenom)
    (hpn : p.PriorityNormalizer = q.PriorityNormalizer)
    (hbase : p.BaseFeePerGas = q.BaseFeePerGas)
    (hmin : p.MinimumFeePerGas = q.MinimumFeePerGas)
    (hcc : p.ChainConfig = q.ChainConfig)
    (hid : p.ChainId = q.ChainId) :
    (∀ ws : List String,
      (validateWhitelistedCodeHashesBankSend (.stringSlice ws) : Option (Error CC E)) = none) ∧
    (∀ wb : List Bytes,
      (validateWhitelistedCwHashesForDelegateCall (.bytesSlice wb) : Option (Error CC E)) =
        none) ∧
    p.Validate ccValidate = q.Validate ccValidate := by
  refine ⟨fun _ => rfl, fun _ => rfl, ?_⟩
  simp [Params.Validate, validateWhitelistedCodeHashesBankSend,
    validateWhitelistedCwHashesForDelegateCall, hdenom, hpn, hbase, hmin, hcc, hid]

/-- Witness of C14: the default Parameter Set and the one with an empty list and
a list of duplicated, short, non-hexadecimal entries as whitelists. -/
theorem Validate_whitelists_irrelevant_witness :
    sampleOtherWhitelists.WhitelistedCodehashesBankSend ≠
      sampleDefaultParams.WhitelistedCodehashesBankSend ∧
    sampleOtherWhitelists.WhitelistedCwCodeHashesForDelegateCall ≠
      sampleDefaultParams.WhitelistedCwCodeHashesForDelegateCall ∧
    sampleOtherWhitelists.Validate SampleChainConfig.Validate =
      sampleDefaultParams.Validate SampleChainConfig.Validate :=
  ⟨by decide, by decide,
   (Validate_whitelists_irrelevant SampleChainConfig.Validate sampleOtherWhitelists
      sampleDefaultParams rfl rfl rfl rfl rfl rfl).2.2⟩

/-- C15: `validateChainConfig` returns the result of the chain configuration's
own validation, success for success and the same error for an error, and
`Params.Validate` returns that result unchanged when the other checks pass. -/
theorem validateChainConfig_delegates (ccValidate : CC → Option E) (p : Params CC)
    (hdenom : (validateBaseDenom (.string p.BaseDenom) : Option (Error CC E)) = none)
    (hpn : (validatePriorityNormalizer (.Dec p.PriorityNormalizer) : Option (Error CC E)) =
      none)
    (hbase : (validateBaseFeePerGas (.Dec p.BaseFeePerGas) : Option (Error CC E)) = none)
    (hmin : (validateMinFeePerGas (.Dec p.MinimumFeePerGas) : Option (Error CC E)) = none)
    (hfees : p.BaseFeePerGas.i ≤ p.MinimumFeePerGas.i)
    (hid : (validateChainID (.Int p.ChainId) : Option (Error CC E)) = none) :
    (∀ c : CC, validateChainConfig ccValidate (.ChainConfig c) =
      (ccValidate c).map Error.nested) ∧
    (∀ c : CC, ccValidate c = none ↔ validateChainConfig ccValidate (.ChainConfig c) = none) ∧
    (∀ (c : CC) (e : E), ccValidate c = some e ↔
      validateChainConfig ccValidate (.ChainConfig c) = some (.nested e)) ∧
    p.Validate ccValidate = (ccValidate p.ChainConfig).map Error.nested ∧
    p.Validate ccValidate = validateChainConfig ccValidate (.ChainConfig p.ChainConfig) := by
  have hlt : p.MinimumFeePerGas.LT p.BaseFeePerGas = false := by
    rw [← Bool.not_eq_true, Dec_LT_iff]; omega
  have hv : p.Validate ccValidate = (ccValidate p.ChainConfig).map Error.nested := by
    unfold Params.Validate
    rw [hdenom, hpn, hbase, hmin, hid]
    cases hc : ccValidate p.ChainConfig <;>
      simp [hlt, validateChainConfig, hc, validateWhitelistedCodeHashesBankSend,
        validateWhitelistedCwHashesForDelegateCall]
  refine ⟨fun _ => rfl, ?_, ?_, hv, hv⟩
  · intro c
    cases hc : ccValidate c <;> simp [validateChainConfig, hc]
  · intro c e
    cases hc : ccValidate c <;> simp [validateChainConfig, hc]

/-- Witness of C15: the default Parameter Set with a chain configuration that
its own validation rejects. -/
theorem validateChainConfig_delegates_witness :
    SampleChainConfig.Validate sampleInvalidChainConfig.ChainConfig =
      some "block cannot be negative" ∧
    sampleInvalidChainConfig.Validate SampleChainConfig.Validate =
      some (.nested "block cannot be negative") :=
  ⟨by decide,
   (validateChainConfig_delegates SampleChainConfig.Validate sampleInvalidChainConfig
      (by decide) (by decide) (by decide) (by decide) (by decide) (by decide)).2.2.2.1⟩

/-- C16: the default Parameter Set has BaseDenom `usei`, PriorityNormalizer 1,
BaseFeePerGas 0, MinimumFeePerGas 1000000000 and ChainId 713715; the minimum fee
is at least the base fee and each of the five values passes its own validator. -/
theorem DefaultParams_values (DefaultChainConfig : CC) (nativeHashHex : String) :
    (DefaultParams DefaultChainConfig nativeHashHex).BaseDenom = "usei" ∧
    (DefaultParams DefaultChainConfig nativeHashHex).PriorityNormalizer = NewDec 1 ∧
    (DefaultParams DefaultChainConfig nativeHashHex).BaseFeePerGas = NewDec 0 ∧
    (DefaultParams DefaultChainConfig nativeHashHex).MinimumFeePerGas = NewDec 1000000000 ∧
    (DefaultParams DefaultChainConfig nativeHashHex).ChainId = NewInt 713715 ∧
    ((NewDec 1).i = 10 ^ 18 ∧ (NewDec 0).i = 0 ∧ (NewDec 1000000000).i = 1000000000 * 10 ^ 18 ∧
      (NewInt 713715).i = 713715) ∧
    (DefaultParams DefaultChainConfig nativeHashHex).BaseFeePerGas.i ≤
      (DefaultParams DefaultChainConfig nativeHashHex).MinimumFeePerGas.i ∧
    (validateBaseDenom
      (.string (DefaultParams DefaultChainConfig nativeHashHex).BaseDenom) :
        Option (Error CC E)) = none ∧
    (validatePriorityNormalizer
      (.Dec (DefaultParams DefaultChainConfig nativeHashHex).PriorityNormalizer) :
        Option (Error CC E)) = none ∧
    (validateBaseFeePerGas
      (.Dec (DefaultParams DefaultChainConfig nativeHashHex).BaseFeePerGas) :
        Option (Error CC E)) = none ∧
    (validateMinFeePerGas
      (.Dec (DefaultParams DefaultChainConfig nativeHashHex).MinimumFeePerGas) :
        Option (Error CC E)) = none ∧
    (validateChainID
      (.Int (DefaultParams DefaultChainConfig nativeHashHex).ChainId) :
        Option (Error CC E)) = none := by
  have hpos : DefaultPriorityNormalizer.IsPositive = true := by decide
  have hbase : DefaultBaseFeePerGas.IsNegative = false := by decide
  have hmin : DefaultMinFeePerGas.IsNegative = false := by decide
  have hid : DefaultChainID.IsNegative = false := by decide
  have hdenom : DefaultBaseDenom ≠ "" := by decide
  have hfees : DefaultBaseFeePerGas.i ≤ DefaultMinFeePerGas.i := by decide
  refine ⟨rfl, rfl, rfl, rfl, rfl, by decide, hfees, ?_, ?_, ?_, ?_, ?_⟩ <;>
    simp [DefaultParams, validateBaseDenom, validatePriorityNormalizer, validateBaseFeePerGas,
      validateMinFeePerGas, validateChainID, hpos, hbase, hmin, hid, hdenom]

/-- C17: the default delegate-call whitelist has exactly two entries, the bytes
of the literals A25D78D7...6102 and 94CDD9C3...EBC8 in this order, each 32 bytes
long; decoding either literal gives no error. -/
theorem DefaultWhitelistedCwCodeHashesForDelegateCall_value :
    DefaultWhitelistedCwCodeHashesForDelegateCall =
      [ [162, 93, 120, 215, 172, 210, 238, 71, 204, 57, 194, 36, 225, 98, 254, 121,
         181, 62, 107, 190, 110, 210, 165, 110, 140, 10, 134, 89, 62, 190, 97, 2],
        [148, 205, 217, 195, 232, 92, 38, 247, 206, 196, 60, 35, 191, 180, 179, 178,
         178, 215, 26, 10, 141, 133, 197, 141, 241, 47, 254, 192, 116, 31, 235, 200] ] ∧
    DefaultWhitelistedCwCodeHashesForDelegateCall.length = 2 ∧
    (∀ h ∈ DefaultWhitelistedCwCodeHashesForDelegateCall, h.length = 32) ∧
    (hexDecodeString
      "A25D78D7ACD2EE47CC39C224E162FE79B53E6BBE6ED2A56E8C0A86593EBE6102").2 = none ∧
    (hexDecodeString
      "94CDD9C3E85C26F7CEC43C23BFB4B3B2B2D71A0A8D85C58DF12FFEC0741FEBC8").2 = none := by
  refine ⟨by decide, by decide, by decide, by decide, by decide⟩

end Delegation

/-! ## The errors of the aggregate validation -/

section Errors

variable {CC E : Type}

/-- C18: an error of `Params.Validate` is never `InvalidType`; it is
`EmptyValue`, `NonPositiveValue`, `NegativeValue`, `InconsistentFees`, or the
error of the chain configuration's own validation. -/
theorem Validate_never_InvalidType (ccValidate : CC → Option E) (p : Params CC)
    (e : Error CC E) (h : p.Validate ccValidate = some e) :
    e.kind ≠ .InvalidType ∧
    (e.kind = .EmptyValue ∨ e.kind = .NonPositiveValue ∨ e.kind = .NegativeValue ∨
      e.kind = .InconsistentFees ∨
      ∃ n : E, ccValidate p.ChainConfig = some n ∧ e = .nested n) := by
  rw [Validate_eq_firstFailure, firstFailure_eq_some_iff] at h
  obtain ⟨k, hk, _⟩ := h
  have hmem := List.getElem?_mem hk
  simp only [Params.checks, List.mem_cons, List.mem_singleton, List.not_mem_nil,
    or_false] at hmem
  rcases hmem with h | h | h | h | h | h | h | h | h
  · simp [validateBaseDenom] at h
    obtain ⟨_, rfl⟩ := h
    simp [Error.kind]
  · simp [validatePriorityNormalizer] at h
    obtain ⟨_, rfl⟩ := h
    simp [Error.kind]
  · simp [validateBaseFeePerGas] at h
    obtain ⟨_, rfl⟩ := h
    simp [Error.kind]
  · simp [validateMinFeePerGas] at h
    obtain ⟨_, rfl⟩ := h
    simp [Error.kind]
  · unfold crossFieldCheck at h
    split at h <;> simp at h
    subst h
    simp [Error.kind]
  · simp [validateChainID] at h
    obtain ⟨_, rfl⟩ := h
    simp [Error.kind]
  · cases hc : ccValidate p.ChainConfig with
    | none => simp [validateChainConfig, hc] at h
    | some n =>
      simp [validateChainConfig, hc] at h
      subst h
      simp [Error.kind]
  · simp [validateWhitelistedCodeHashesBankSend] at h
  · simp [validateWhitelistedCwHashesForDelegateCall] at h

/-- Witness of C18: the error of the sample set with a rejected chain
configuration is the nested one, not `InvalidType`. -/
theorem Validate_never_InvalidType_witness :
    sampleInvalidChainConfig.Validate SampleChainConfig.Validate =
      some (.nested "block cannot be negative") ∧
    (Error.nested "block cannot be negative" :
      Error SampleChainConfig String).kind ≠ .InvalidType :=
  ⟨by decide,
   (Validate_never_InvalidType SampleChainConfig.Validate sampleInvalidChainConfig
      (.nested "block cannot be negative") (by decide)).1⟩

/-- C19 does not hold of the program: the message text `validateChainID` gives
for the chain id -1 is the text `validateMinFeePerGas` gives for the minimum fee
-1, and `Params.Validate` reports a negative ChainId and a negative
MinimumFeePerGas with the same text. The texts of the four validators other than
`validateChainID` are pairwise different. -/
theorem validateChainID_text_is_validateMinFeePerGas_text :
    ((validateChainID (.Int (NewInt (-1))) :
      Option (Error SampleChainConfig String)).bind Error.text) =
      some "negative min fee per gas: %d" ∧
    ((validateMinFeePerGas (.Dec (NewDec (-1))) :
      Option (Error SampleChainConfig String)).bind Error.text) =
      some "negative min fee per gas: %d" ∧
    (sampleNegativeChainId.Validate SampleChainConfig.Validate).bind Error.text =
      (sampleNegativeMinFee.Validate SampleChainConfig.Validate).bind Error.text ∧
    (sampleNegativeChainId.Validate SampleChainConfig.Validate).bind Error.text =
      some "negative min fee per gas: %d" ∧
    [ (validateBaseDenom (.string "") :
        Option (Error SampleChainConfig String)).bind Error.text,
      (validatePriorityNormalizer (.Dec (NewDec 0)) :
        Option (Error SampleChainConfig String)).bind Error.text,
      (validateBaseFeePerGas (.Dec (NewDec (-1))) :
        Option (Error SampleChainConfig String)).bind Error.text,
      (validateMinFeePerGas (.Dec (NewDec (-1))) :
        Option (Error SampleChainConfig String)).bind Error.text ].Nodup := by
  refine ⟨by decide, by decide, by decide, by decide, by decide⟩

end Errors

end EvmTypes
